import Mathlib

/-!
# Verification of the imgly-sdk-html5 render-pipeline core

Shallow embedding of the rotation operation
(`src/js/operations/rotation-operation.js`), the SDK entry point
(`index.js`, here `unnamed/part_000`) and the geometry primitive
`Vector2`, together with proofs and refutations of the specified
properties.

JavaScript numbers are modelled as rationals (`ℚ`) where only
arithmetic the code performs is addition, subtraction, halving and
min/max; the integral `degrees` option is modelled as `Int`, with the
JavaScript `%` operator (truncated remainder) modelled by `Int.tmod`.
Object mutation is modelled by explicit state passing: a method that
mutates an argument object returns the argument's post-call value.
-/

namespace Imgly

/-- A 2D vector, as in `lib/math/vector2.js`: a pair of numbers. -/
structure Vector2 where
  x : ℚ
  y : ℚ
deriving DecidableEq, Repr

namespace Vector2

/-- Modelled from the spec: `Vector2.clamp` (lib/math/vector2.js is not
among the provided sources). Per the spec, `clamp(min, max)` bounds
each component independently, a `null` bound is no constraint on that
side, and when a minimum exceeds a maximum the minimum wins the
tie-break (the value is bounded above first, then below). This models
one component. -/
def clampComp (v : ℚ) (lo hi : Option ℚ) : ℚ :=
  let v1 := match hi with
    | some h => min v h
    | none => v
  match lo with
  | some l => max v1 l
  | none => v1

/-- Modelled from the spec: `Vector2.clamp` applied componentwise, a
`null` (here `none`) bound constraining neither axis on that side. -/
def clamp (v : Vector2) (lo hi : Option Vector2) : Vector2 :=
  ⟨clampComp v.x (lo.map Vector2.x) (hi.map Vector2.x),
   clampComp v.y (lo.map Vector2.y) (hi.map Vector2.y)⟩

end Vector2

/-! ## RotationOperation (src/js/operations/rotation-operation.js) -/

namespace RotationOperation

/-- The validated option state of a `RotationOperation`
(`this._options`): the single declared option `degrees`
(type number, default 0). -/
structure Options where
  degrees : Int
deriving DecidableEq, Repr

/-- The `validation` closure declared for the `degrees` option
(rotation-operation.js lines 24–28): throws unless the value is a
multiple of 90. JavaScript `value % 90` is truncated remainder. -/
def degreesValidation (value : Int) : Except String Unit :=
  if value.tmod 90 ≠ 0 then
    .error "RotationOperation: `rotation` has to be a multiple of 90."
  else
    .ok ()

/-- Modelled from the spec: the `Operation` base-class constructor
(operations/operation.js is not among the provided sources). Per the
spec, construction merges the supplied options with the declared
defaults (here `degrees` defaults to 0) and runs every declared
validator eagerly; a validator failure aborts construction with that
error, before any rendering can occur. The `degrees` validator itself
is `degreesValidation`, taken from rotation-operation.js. -/
def construct (degrees? : Option Int) : Except String Options :=
  let degrees := degrees?.getD 0
  match degreesValidation degrees with
  | .error e => .error e
  | .ok _ => .ok ⟨degrees⟩

/-- `getNewDimensions(renderer, dimensions)`
(rotation-operation.js lines 161–173). When a `dimensions` vector is
supplied the code swaps its `x`/`y` components **in place** (when
`actualDegrees % 180 !== 0`) and returns that same object; otherwise a
fresh vector is built from the renderer's canvas size. The first
component of the result is the returned vector's value; the second is
the supplied argument's post-call value (`none` when no argument was
supplied). -/
def getNewDimensions (degrees : Int) (canvas : Vector2)
    (dims? : Option Vector2) : Vector2 × Option Vector2 :=
  let dimensions := dims?.getD ⟨canvas.x, canvas.y⟩
  let actualDegrees := degrees.tmod 360
  let result :=
    if actualDegrees.tmod 180 ≠ 0 then
      Vector2.mk dimensions.y dimensions.x
    else
      dimensions
  (result, dims?.map fun _ => result)

end RotationOperation

/-! ## WebGL render strategy (`_renderWebGL`, lines 63–118)

The WebGL renderer is modelled by the observable surface state the
operation touches: the canvas size, the identities of the textures
(`getTextures()`, `getLastTexture()`, `getCurrentTexture()`) and each
texture's storage size. Every `gl.texImage2D` resize and the
`runShader` call are additionally recorded in an event trace, in
program order. The shader's 3×3 rotation matrix is built from
`cos`/`sin` of `actualDegrees · π/180`; the event records the
`actualDegrees` value that determines it. -/

/-- An observable step of `_renderWebGL`, in program order. -/
inductive GLEvent where
  /-- `canvas.width = w; canvas.height = h` -/
  | resizeCanvas (w h : ℚ)
  /-- `gl.bindTexture(tex); gl.texImage2D(..., w, h, ...)` -/
  | resizeTexture (tex : Nat) (w h : ℚ)
  /-- `renderer.runShader(vertexShader, ...)` with the rotation matrix
  `[[cos θ, -sin θ, 0], [sin θ, cos θ, 0], [0, 0, 1]]`,
  `θ = actualDegrees · π/180`. -/
  | runShader (actualDegrees : Int)
deriving DecidableEq, Repr

/-- Whether a `GLEvent` is the `runShader` call. -/
def GLEvent.isRunShader : GLEvent → Bool
  | .runShader _ => true
  | _ => false

/-- Whether a `GLEvent` is a canvas resize. -/
def GLEvent.isResizeCanvas : GLEvent → Bool
  | .resizeCanvas _ _ => true
  | _ => false

/-- Whether a `GLEvent` resizes the given texture. -/
def GLEvent.resizesTex (tex : Nat) : GLEvent → Bool
  | .resizeTexture t _ _ => t = tex
  | _ => false

/-- Holds when no resize of texture `tex` occurs before the first
`runShader` call of the trace. -/
def noTexResizeBeforeShader (tex : Nat) : List GLEvent → Bool
  | [] => true
  | e :: rest =>
      if e.isRunShader then true
      else !(GLEvent.resizesTex tex e) && noTexResizeBeforeShader tex rest

/-- The WebGL renderer surface state seen by the rotation operation. -/
structure WebGLState where
  /-- `renderer.getCanvas()` width/height -/
  canvas : Vector2
  /-- `renderer.getTextures()` -/
  textures : List Nat
  /-- `renderer.getLastTexture()` — the input texture read by the shader -/
  lastTexture : Nat
  /-- `renderer.getCurrentTexture()` — the render target -/
  currentTexture : Nat
  /-- storage size of each texture -/
  texDims : Nat → Vector2

/-- Pointwise update of the texture-size map. -/
def updTex (m : Nat → Vector2) (id : Nat) (d : Vector2) : Nat → Vector2 :=
  fun t => if t = id then d else m t

namespace RotationOperation

/-- `_renderWebGL(renderer)` (rotation-operation.js lines 63–118).
Returns the operation's option state after the call, the renderer
state after the call, and the event trace in program order. The
`for`-loop over `renderer.getTextures()` that `continue`s on the input
texture is embedded as a filter; its per-iteration resizes appear in
the trace in list order. -/
def renderWebGL (opts : Options) (s : WebGLState) :
    Options × WebGLState × List GLEvent :=
  let actualDegrees := opts.degrees.tmod 360
  let lastTexture := s.lastTexture
  -- If we're not rotating by 180 degrees, resize the canvas and textures
  let (s1, events1) :=
    if actualDegrees.tmod 180 ≠ 0 then
      let newDimensions := (getNewDimensions opts.degrees s.canvas none).1
      -- resize the canvas, then the current texture, then every other
      -- texture except the input texture
      let auxTextures := s.textures.filter (fun t => t ≠ lastTexture)
      let texDims1 := auxTextures.foldl
        (fun m t => updTex m t newDimensions)
        (updTex s.texDims s.currentTexture newDimensions)
      ({ s with canvas := newDimensions, texDims := texDims1 },
       GLEvent.resizeCanvas newDimensions.x newDimensions.y ::
       GLEvent.resizeTexture s.currentTexture newDimensions.x newDimensions.y ::
       auxTextures.map (fun t =>
         GLEvent.resizeTexture t newDimensions.x newDimensions.y))
    else
      (s, [])
  -- run the shader, then resize the input texture
  let s2 := { s1 with
    texDims := updTex s1.texDims lastTexture s1.canvas }
  (opts, s2,
   events1 ++ [GLEvent.runShader actualDegrees,
     GLEvent.resizeTexture lastTexture s1.canvas.x s1.canvas.y])

end RotationOperation

/-! ## Canvas2D render strategy (`_renderCanvas`, lines 124–153) -/

/-- An observable step of `_renderCanvas`, in program order. -/
inductive C2DEvent where
  /-- `renderer.createCanvas()` followed by setting its width/height -/
  | createCanvas (w h : ℚ)
  /-- `newContext.save()` -/
  | save
  /-- `newContext.translate(x, y)` -/
  | translate (x y : ℚ)
  /-- `newContext.rotate(actualDegrees · π/180)` -/
  | rotate (actualDegrees : Int)
  /-- `newContext.drawImage(clonedOldCanvas, x, y)` -/
  | drawImage (x y : ℚ)
  /-- `newContext.restore()` -/
  | restore
  /-- `renderer.setCanvas(newCanvas)` with the given final size -/
  | setCanvas (w h : ℚ)
deriving DecidableEq, Repr

/-- The Canvas2D renderer surface state seen by the rotation
operation: the active canvas size. -/
structure CanvasState where
  canvas : Vector2
deriving DecidableEq, Repr

namespace RotationOperation

/-- `_renderCanvas(renderer)` (rotation-operation.js lines 124–153).
Returns the operation's option state after the call, the renderer
state after the call, and the event trace in program order. -/
def renderCanvas (opts : Options) (s : CanvasState) :
    Options × CanvasState × List C2DEvent :=
  let actualDegrees := opts.degrees.tmod 360
  let newDimensions := (getNewDimensions opts.degrees s.canvas none).1
  (opts, { canvas := newDimensions },
   [C2DEvent.createCanvas newDimensions.x newDimensions.y,
    C2DEvent.save,
    C2DEvent.translate (newDimensions.x / 2) (newDimensions.y / 2),
    C2DEvent.rotate actualDegrees,
    C2DEvent.drawImage (-(s.canvas.x / 2)) (-(s.canvas.y / 2)),
    C2DEvent.restore,
    C2DEvent.setCanvas newDimensions.x newDimensions.y])

end RotationOperation

/-! ## SDK entry point (`index.js`, source file `unnamed/part_000`) -/

/-- Modelled from the spec: the output delivery modes
(`Constants.RenderType`, constants.js is not among the provided
sources): inline-encoded string vs. raw decodable object. -/
inductive RenderType where
  | dataUrl
  | image
deriving DecidableEq, Repr

/-- Modelled from the spec: the recognized output encodings
(`Constants.ImageFormat`): a raster-compressed format and a lossless
format. -/
inductive ImageFormat where
  | png
  | jpeg
deriving DecidableEq, Repr

/-- The settings object returned by `ImageExporter.validateSettings`. -/
structure ExportSettings where
  renderType : RenderType
  imageFormat : ImageFormat
deriving DecidableEq, Repr

/-- An observable step of `ImglyKit.prototype.render`, in program
order. -/
inductive RenderStep where
  /-- the synchronous `ImageExporter.validateSettings(renderType, imageFormat)` call -/
  | validateSettings
  /-- `new RenderImage(image, operationsStack, dimensions, renderer)` -/
  | constructRenderImage
  /-- the asynchronous `renderImage.render()` call -/
  | renderImageRender
  /-- the asynchronous `ImageExporter.export(canvas, renderType, imageFormat)` call -/
  | exporterExport (renderType : RenderType) (imageFormat : ImageFormat)
deriving DecidableEq, Repr

namespace ImglyKit

/-- `ImglyKit.prototype.render(renderType, imageFormat, dimensions)`
(part_000 lines 106–121), parameterized by the behavior of
`ImageExporter.validateSettings` (image-exporter.js is not among the
provided sources; the spec says it validates the combination against a
fixed allowed set and fails with a descriptive error on an unsupported
one). A thrown validation error propagates synchronously; otherwise
the `RenderImage` is constructed and the asynchronous render and
export are initiated, in that order. -/
def render
    (validateSettings :
      Option RenderType → Option ImageFormat → Except String ExportSettings)
    (renderType : Option RenderType) (imageFormat : Option ImageFormat) :
    Except String Unit × List RenderStep :=
  match validateSettings renderType imageFormat with
  | .error e => (.error e, [RenderStep.validateSettings])
  | .ok settings =>
      (.ok (),
       [RenderStep.validateSettings,
        RenderStep.constructRenderImage,
        RenderStep.renderImageRender,
        RenderStep.exporterExport settings.renderType settings.imageFormat])

/-- The options object accepted by the `ImglyKit` constructor. A JS
field that may be absent is an `Option`; the image is an opaque
handle. -/
structure KitOptions where
  image : Option Nat
  assetsUrl : Option String
  container : Option String
  ui : Option Bool
deriving DecidableEq, Repr

/-- The instance state initialized by a successful `ImglyKit`
construction. -/
structure KitState where
  image : Nat
  assetsUrl : String
  container : Option String
  ui : Bool
  operationsStack : List String
deriving DecidableEq, Repr

/-- The `ImglyKit` constructor (part_000 lines 28–67): throws
`"No options given."` when `options` is `undefined`, throws
``"`options.image` is undefined."`` when `options.image` is
`undefined`, and otherwise fills in the defaults
(`assetsUrl: "assets"`, `container: null`, `ui: true`) and initializes
the instance state with an empty operations stack. -/
def construct (options? : Option KitOptions) : Except String KitState :=
  match options? with
  | none => .error "No options given."
  | some options =>
      match options.image with
      | none => .error "`options.image` is undefined."
      | some img =>
          .ok { image := img,
                assetsUrl := options.assetsUrl.getD "assets",
                container := options.container,
                ui := options.ui.getD true,
                operationsStack := [] }

end ImglyKit

end Imgly

namespace Imgly

/-- tmod by 360 then by 180 vanishes exactly when 180 divides. -/
theorem tmod360_tmod180_eq_zero_iff (d : Int) :
    (d.tmod 360).tmod 180 = 0 ↔ (180 : Int) ∣ d := by
  rw [← Int.dvd_iff_tmod_eq_zero]
  have h360 : 360 * (d.tdiv 360) + d.tmod 360 = d := Int.tdiv_add_tmod d 360
  constructor
  · intro h
    omega
  · intro h
    omega

/-- The returned vector from `getNewDimensions` with an explicit
argument: swap exactly when 180 does not divide the degrees. -/
theorem getNewDimensions_some (degrees : Int) (canvas D : Vector2) :
    (RotationOperation.getNewDimensions degrees canvas (some D)).1 =
      if (180 : Int) ∣ degrees then D else ⟨D.y, D.x⟩ := by
  unfold RotationOperation.getNewDimensions
  simp only [Option.getD_some]
  by_cases h : (180 : Int) ∣ degrees
  · have : (degrees.tmod 360).tmod 180 = 0 := (tmod360_tmod180_eq_zero_iff degrees).mpr h
    simp [this, h]
  · have : (degrees.tmod 360).tmod 180 ≠ 0 :=
      fun hc => h ((tmod360_tmod180_eq_zero_iff degrees).mp hc)
    simp [this, h]

/-- The vector returned by `getNewDimensions` when no dimensions
argument is supplied: built from the canvas size, swapped exactly when
180 does not divide the degrees. -/
theorem getNewDimensions_none (degrees : Int) (canvas : Vector2) :
    (RotationOperation.getNewDimensions degrees canvas none).1 =
      if (180 : Int) ∣ degrees then canvas else ⟨canvas.y, canvas.x⟩ := by
  unfold RotationOperation.getNewDimensions
  simp only [Option.getD_none]
  by_cases h : (180 : Int) ∣ degrees
  · have : (degrees.tmod 360).tmod 180 = 0 := (tmod360_tmod180_eq_zero_iff degrees).mpr h
    simp [this, h]
  · have : (degrees.tmod 360).tmod 180 ≠ 0 :=
      fun hc => h ((tmod360_tmod180_eq_zero_iff degrees).mp hc)
    simp [this, h]

/-! ## C1: purity of `getNewDimensions` -/

/-- C1 counterexample: `RotationOperation.getNewDimensions` is NOT
mutation-free on a supplied dimensions vector. With `degrees = 90` and
the supplied vector `D = (100, 200)`, after the call the supplied
vector holds `(200, 100)` — its components were swapped in place — so
it is not left unchanged. -/
theorem C1_getNewDimensions_mutates_counterexample :
    (RotationOperation.getNewDimensions 90 ⟨100, 200⟩
      (some ⟨100, 200⟩)).2 = some (⟨200, 100⟩ : Vector2) ∧
    (RotationOperation.getNewDimensions 90 ⟨100, 200⟩
      (some ⟨100, 200⟩)).2 ≠ some (⟨100, 200⟩ : Vector2) := by
  constructor
  · rfl
  · decide

/-- C1 (amended): `getNewDimensions` is deterministic in the values of
its arguments, but when an explicit dimensions vector is supplied it
works on that vector in place and returns the same object: after the
call the supplied vector holds exactly the returned value, which has
its components swapped when `degrees mod 180 ≠ 0` and is unchanged
exactly when 180 divides the degrees. -/
theorem C1_getNewDimensions_in_place (degrees : Int) (canvas D : Vector2) :
    (RotationOperation.getNewDimensions degrees canvas (some D)).2 =
      some (RotationOperation.getNewDimensions degrees canvas (some D)).1 ∧
    (RotationOperation.getNewDimensions degrees canvas (some D)).1 =
      (if (180 : Int) ∣ degrees then D else ⟨D.y, D.x⟩) := by
  refine ⟨rfl, getNewDimensions_some degrees canvas D⟩

/-! ## C2: the dimension rule of `getNewDimensions` -/

/-- C2 counterexample: with the validated value `degrees = 180`
(a multiple of 90) and input `(100, 200)`, `getNewDimensions` returns
the input dimensions unchanged although `180 mod 360 ≠ 0`, refuting
"identity if and only if degrees mod 360 == 0". -/
theorem C2_identity_at_180_counterexample :
    (90 : Int) ∣ 180 ∧
    (RotationOperation.getNewDimensions 180 ⟨100, 200⟩
      (some ⟨100, 200⟩)).1 = (⟨100, 200⟩ : Vector2) ∧
    ¬ (180 : Int) % 360 = 0 := by
  refine ⟨⟨2, by norm_num⟩, rfl, by decide⟩

/-- C2 (amended): for every validated degrees value,
`getNewDimensions` swaps the width and height components iff
`degrees mod 180 ≠ 0`, and returns the input dimensions unchanged iff
`degrees mod 180 = 0` (not `mod 360`); a 100×200 source with
`degrees = 90` yields 200×100. -/
theorem C2_getNewDimensions_rule (degrees : Int) (canvas D : Vector2)
    (_hval : (90 : Int) ∣ degrees) :
    (¬ (180 : Int) ∣ degrees →
      (RotationOperation.getNewDimensions degrees canvas (some D)).1 =
        ⟨D.y, D.x⟩) ∧
    ((180 : Int) ∣ degrees →
      (RotationOperation.getNewDimensions degrees canvas (some D)).1 = D) ∧
    (RotationOperation.getNewDimensions 90 ⟨100, 200⟩
      (some ⟨100, 200⟩)).1 = (⟨200, 100⟩ : Vector2) := by
  refine ⟨fun h => ?_, fun h => ?_, rfl⟩
  · rw [getNewDimensions_some]
    simp [h]
  · rw [getNewDimensions_some]
    simp [h]

/-- C2 witness: the amended rule evaluated at `degrees = 90`,
canvas 1×1, dimensions 100×200. -/
theorem C2_getNewDimensions_rule_witness :
    (¬ (180 : Int) ∣ 90 →
      (RotationOperation.getNewDimensions 90 ⟨1, 1⟩
        (some ⟨100, 200⟩)).1 = ⟨200, 100⟩) ∧
    ((180 : Int) ∣ 90 →
      (RotationOperation.getNewDimensions 90 ⟨1, 1⟩
        (some ⟨100, 200⟩)).1 = ⟨100, 200⟩) ∧
    (RotationOperation.getNewDimensions 90 ⟨100, 200⟩
      (some ⟨100, 200⟩)).1 = (⟨200, 100⟩ : Vector2) :=
  C2_getNewDimensions_rule 90 ⟨1, 1⟩ ⟨100, 200⟩ (by decide)

/-! ## C3: the `degrees` validation -/

/-- C3: constructing a `RotationOperation` with any degrees value that
is not a multiple of 90 (for example 45) fails with the validation
error, whose message contains the words "multiple of 90", while any
multiple of 90 (for example 270) succeeds; validation is part of
construction, so it happens strictly before any rendering (the render
strategies require an already-constructed option state). -/
theorem C3_degrees_validation (degrees : Int) :
    (¬ (90 : Int) ∣ degrees →
      RotationOperation.construct (some degrees) =
        .error "RotationOperation: `rotation` has to be a multiple of 90.") ∧
    ((90 : Int) ∣ degrees →
      RotationOperation.construct (some degrees) = .ok ⟨degrees⟩) ∧
    (∃ pre post,
      "RotationOperation: `rotation` has to be a multiple of 90." =
        pre ++ "multiple of 90" ++ post) ∧
    RotationOperation.construct (some 45) =
      .error "RotationOperation: `rotation` has to be a multiple of 90." ∧
    RotationOperation.construct (some 270) = .ok ⟨270⟩ := by
  refine ⟨fun h => ?_, fun h => ?_,
    ⟨"RotationOperation: `rotation` has to be a ", ".", rfl⟩, rfl, rfl⟩
  · have ht : degrees.tmod 90 ≠ 0 :=
      fun hc => h (Int.dvd_iff_tmod_eq_zero.mpr hc)
    simp [RotationOperation.construct, RotationOperation.degreesValidation, ht]
  · have ht : degrees.tmod 90 = 0 := Int.dvd_iff_tmod_eq_zero.mp h
    simp [RotationOperation.construct, RotationOperation.degreesValidation, ht]

/-- C3 witness: the universal validation rule evaluated at the
non-multiple 45 (failure, with the "multiple of 90" message) and at
the multiple 270 (success). -/
theorem C3_degrees_validation_witness :
    RotationOperation.construct (some 45) =
      .error "RotationOperation: `rotation` has to be a multiple of 90." ∧
    RotationOperation.construct (some 270) = .ok ⟨270⟩ :=
  ⟨(C3_degrees_validation 45).1 (by decide),
   (C3_degrees_validation 270).2.1 (by decide)⟩

/-- Rebuilding a `Vector2` from its components is the identity. -/
theorem Vector2.mk_xy (v : Vector2) : Vector2.mk v.x v.y = v := rfl

/-! ## C4: both render strategies agree on the final dimensions -/

/-- C4: for every degrees value, `_renderWebGL` and `_renderCanvas`
leave the render surface with identical final dimensions, namely those
given by `getNewDimensions`, and both use the effective rotation
`degrees mod 360` (the WebGL shader matrix and the Canvas2D `rotate`
call are built from `opts.degrees.tmod 360`). -/
theorem C4_backend_dimension_agreement (opts : RotationOperation.Options)
    (sGL : WebGLState) (sC : CanvasState) :
    (RotationOperation.renderWebGL opts sGL).2.1.canvas =
      (RotationOperation.getNewDimensions opts.degrees sGL.canvas none).1 ∧
    (RotationOperation.renderCanvas opts sC).2.1.canvas =
      (RotationOperation.getNewDimensions opts.degrees sC.canvas none).1 ∧
    GLEvent.runShader (opts.degrees.tmod 360) ∈
      (RotationOperation.renderWebGL opts sGL).2.2 ∧
    C2DEvent.rotate (opts.degrees.tmod 360) ∈
      (RotationOperation.renderCanvas opts sC).2.2 := by
  refine ⟨?_, rfl, ?_, ?_⟩
  · by_cases h : (opts.degrees.tmod 360).tmod 180 ≠ 0
    · simp only [RotationOperation.renderWebGL, if_pos h]
    · simp only [RotationOperation.renderWebGL, if_neg h]
      unfold RotationOperation.getNewDimensions
      simp only [Option.getD_none]
      simp only [ne_eq, not_not] at h
      simp [h, Vector2.mk_xy]
  · by_cases h : (opts.degrees.tmod 360).tmod 180 ≠ 0
    · simp [RotationOperation.renderWebGL, if_pos h]
    · simp [RotationOperation.renderWebGL, if_neg h]
  · simp [RotationOperation.renderCanvas]

/-! ## C5: the input texture is resized last in `_renderWebGL` -/

/-- A block of texture resizes over textures distinct from `tex`,
followed by the shader run, contains no resize of `tex` before the
shader. -/
theorem noTexResizeBeforeShader_of_resize_block (tex : Nat) (w h : ℚ)
    (d : Int) (tail : List GLEvent) (l : List Nat)
    (hl : ∀ t ∈ l, t ≠ tex) :
    noTexResizeBeforeShader tex
      (l.map (fun t => GLEvent.resizeTexture t w h) ++
        GLEvent.runShader d :: tail) = true := by
  induction l with
  | nil => simp [noTexResizeBeforeShader, GLEvent.isRunShader]
  | cons a as ih =>
      have ha : a ≠ tex := hl a (List.mem_cons_self a as)
      have has : ∀ t ∈ as, t ≠ tex := fun t ht => hl t (List.mem_cons_of_mem a ht)
      simp [noTexResizeBeforeShader, GLEvent.isRunShader, GLEvent.resizesTex,
        ha, ih has]

/-- C5 counterexample: with `degrees = 180` (validated, effective
rotation 180) the trace of `_renderWebGL` contains no canvas resize at
all — nothing is resized before the shader runs — refuting the claim
that the canvas, the current texture and the auxiliary textures are
resized before the shader; the input texture is still resized after
the shader. State: canvas 100×200, textures `[0, 1]`, input (last)
texture 0, current texture 1. -/
theorem C5_no_resizes_at_180_counterexample :
    (RotationOperation.renderWebGL ⟨180⟩
      ⟨⟨100, 200⟩, [0, 1], 0, 1, fun _ => ⟨100, 200⟩⟩).2.2 =
      [GLEvent.runShader 180, GLEvent.resizeTexture 0 100 200] ∧
    ((RotationOperation.renderWebGL ⟨180⟩
      ⟨⟨100, 200⟩, [0, 1], 0, 1, fun _ => ⟨100, 200⟩⟩).2.2).all
        (fun e => !GLEvent.isResizeCanvas e) = true := by
  constructor
  · rfl
  · rfl

/-- C5 (amended): provided the renderer's current (target) texture is
distinct from the last (input) texture, the input texture is never
resized before the shader runs; moreover, when the effective rotation
`degrees mod 180 ≠ 0`, the trace is exactly: resize the canvas, resize
the current texture, resize every other texture except the input
texture, run the shader, and only then resize the input texture; when
`degrees mod 180 = 0` no resize precedes the shader and the input
texture is still resized right after it. -/
theorem C5_input_texture_resized_last (opts : RotationOperation.Options)
    (s : WebGLState) (hct : s.currentTexture ≠ s.lastTexture) :
    noTexResizeBeforeShader s.lastTexture
      (RotationOperation.renderWebGL opts s).2.2 = true ∧
    ((opts.degrees.tmod 360).tmod 180 ≠ 0 →
      (RotationOperation.renderWebGL opts s).2.2 =
        GLEvent.resizeCanvas
          (RotationOperation.getNewDimensions opts.degrees s.canvas none).1.x
          (RotationOperation.getNewDimensions opts.degrees s.canvas none).1.y ::
        GLEvent.resizeTexture s.currentTexture
          (RotationOperation.getNewDimensions opts.degrees s.canvas none).1.x
          (RotationOperation.getNewDimensions opts.degrees s.canvas none).1.y ::
        ((s.textures.filter (fun t => t ≠ s.lastTexture)).map
          (fun t => GLEvent.resizeTexture t
            (RotationOperation.getNewDimensions opts.degrees s.canvas none).1.x
            (RotationOperation.getNewDimensions opts.degrees s.canvas none).1.y) ++
         [GLEvent.runShader (opts.degrees.tmod 360),
          GLEvent.resizeTexture s.lastTexture
            (RotationOperation.getNewDimensions opts.degrees s.canvas none).1.x
            (RotationOperation.getNewDimensions opts.degrees s.canvas none).1.y])) ∧
    ((opts.degrees.tmod 360).tmod 180 = 0 →
      (RotationOperation.renderWebGL opts s).2.2 =
        [GLEvent.runShader (opts.degrees.tmod 360),
         GLEvent.resizeTexture s.lastTexture s.canvas.x s.canvas.y]) := by
  refine ⟨?_, fun h => ?_, fun h => ?_⟩
  · by_cases h : (opts.degrees.tmod 360).tmod 180 ≠ 0
    · simp only [RotationOperation.renderWebGL, if_pos h]
      simp only [noTexResizeBeforeShader, GLEvent.isRunShader,
        GLEvent.resizesTex, List.cons_append]
      rw [if_neg (by simp), if_neg (by simp)]
      have hcur : (decide (s.currentTexture = s.lastTexture)) = false :=
        decide_eq_false hct
      simp only [hcur, Bool.not_false, Bool.true_and]
      exact noTexResizeBeforeShader_of_resize_block s.lastTexture _ _ _ _ _
        (fun t ht => of_decide_eq_true (List.mem_filter.mp ht).2)
    · simp only [RotationOperation.renderWebGL, if_neg h]
      simp [noTexResizeBeforeShader, GLEvent.isRunShader]
  · simp only [RotationOperation.renderWebGL, if_pos h]
    rfl
  · simp only [RotationOperation.renderWebGL, if_neg (not_not.mpr h)]
    rfl

/-- C5 witness: the amended theorem applied at `degrees = 90`,
canvas 100×200, textures `[0, 1]`, input texture 0, current
texture 1. -/
theorem C5_input_texture_resized_last_witness :
    noTexResizeBeforeShader 0
      (RotationOperation.renderWebGL ⟨90⟩
        ⟨⟨100, 200⟩, [0, 1], 0, 1, fun _ => ⟨100, 200⟩⟩).2.2 = true ∧
    (((90 : Int).tmod 360).tmod 180 ≠ 0 →
      (RotationOperation.renderWebGL ⟨90⟩
        ⟨⟨100, 200⟩, [0, 1], 0, 1, fun _ => ⟨100, 200⟩⟩).2.2 =
        GLEvent.resizeCanvas
          (RotationOperation.getNewDimensions 90 ⟨100, 200⟩ none).1.x
          (RotationOperation.getNewDimensions 90 ⟨100, 200⟩ none).1.y ::
        GLEvent.resizeTexture 1
          (RotationOperation.getNewDimensions 90 ⟨100, 200⟩ none).1.x
          (RotationOperation.getNewDimensions 90 ⟨100, 200⟩ none).1.y ::
        (([0, 1].filter (fun t => t ≠ 0)).map
          (fun t => GLEvent.resizeTexture t
            (RotationOperation.getNewDimensions 90 ⟨100, 200⟩ none).1.x
            (RotationOperation.getNewDimensions 90 ⟨100, 200⟩ none).1.y) ++
         [GLEvent.runShader ((90 : Int).tmod 360),
          GLEvent.resizeTexture 0
            (RotationOperation.getNewDimensions 90 ⟨100, 200⟩ none).1.x
            (RotationOperation.getNewDimensions 90 ⟨100, 200⟩ none).1.y])) ∧
    (((90 : Int).tmod 360).tmod 180 = 0 →
      (RotationOperation.renderWebGL ⟨90⟩
        ⟨⟨100, 200⟩, [0, 1], 0, 1, fun _ => ⟨100, 200⟩⟩).2.2 =
        [GLEvent.runShader ((90 : Int).tmod 360),
         GLEvent.resizeTexture 0 100 200]) :=
  C5_input_texture_resized_last ⟨90⟩
    ⟨⟨100, 200⟩, [0, 1], 0, 1, fun _ => ⟨100, 200⟩⟩ (by decide)

/-! ## C6: the Canvas2D strategy's exact step sequence -/

/-- C6: `_renderCanvas` performs, in order: create a new canvas with
the `getNewDimensions` size (swapped unless 180 divides the degrees),
save, translate the origin to the new canvas's center, rotate the
context by the effective angle (`degrees mod 360`, converted to
radians), draw the prior content at offset `(-oldWidth/2,
-oldHeight/2)`, restore, and replace the renderer's active canvas with
the new one (so the final active canvas has the new size). -/
theorem C6_renderCanvas_steps (opts : RotationOperation.Options)
    (s : CanvasState) :
    (RotationOperation.renderCanvas opts s).2.2 =
      [C2DEvent.createCanvas
        (if (180 : Int) ∣ opts.degrees then s.canvas.x else s.canvas.y)
        (if (180 : Int) ∣ opts.degrees then s.canvas.y else s.canvas.x),
       C2DEvent.save,
       C2DEvent.translate
        ((if (180 : Int) ∣ opts.degrees then s.canvas.x else s.canvas.y) / 2)
        ((if (180 : Int) ∣ opts.degrees then s.canvas.y else s.canvas.x) / 2),
       C2DEvent.rotate (opts.degrees.tmod 360),
       C2DEvent.drawImage (-(s.canvas.x / 2)) (-(s.canvas.y / 2)),
       C2DEvent.restore,
       C2DEvent.setCanvas
        (if (180 : Int) ∣ opts.degrees then s.canvas.x else s.canvas.y)
        (if (180 : Int) ∣ opts.degrees then s.canvas.y else s.canvas.x)] ∧
    (RotationOperation.renderCanvas opts s).2.1.canvas =
      (RotationOperation.getNewDimensions opts.degrees s.canvas none).1 := by
  have hnd := getNewDimensions_none opts.degrees s.canvas
  constructor
  · simp only [RotationOperation.renderCanvas, hnd]
    by_cases h : (180 : Int) ∣ opts.degrees
    · simp [h]
    · simp [h]
  · rfl

/-! ## C8: rendering never mutates the operation's option state -/

/-- C8: both render strategies return the operation's option state
(`this._options`, in particular `degrees`) unchanged: they mutate only
the renderer-owned surface state. -/
theorem C8_render_preserves_options (opts : RotationOperation.Options)
    (sGL : WebGLState) (sC : CanvasState) :
    (RotationOperation.renderWebGL opts sGL).1 = opts ∧
    (RotationOperation.renderCanvas opts sC).1 = opts :=
  ⟨rfl, rfl⟩

/-! ## C7: export settings are validated before any rendering work -/

/-- C7: `ImglyKit.render` runs `ImageExporter.validateSettings` first,
synchronously; when validation throws, the error propagates and
nothing else happens — no `RenderImage` is constructed and no
asynchronous render or encode call is made; on success the
`RenderImage` construction and the asynchronous render and export
follow the validation, in that order. Stated for every behavior of
`validateSettings` (image-exporter.js is not among the provided
sources). -/
theorem C7_validate_before_render
    (vs : Option RenderType → Option ImageFormat → Except String ExportSettings)
    (rt : Option RenderType) (fmt : Option ImageFormat) :
    (ImglyKit.render vs rt fmt).2.head? = some RenderStep.validateSettings ∧
    (∀ e, vs rt fmt = .error e →
      (ImglyKit.render vs rt fmt).1 = .error e ∧
      (ImglyKit.render vs rt fmt).2 = [RenderStep.validateSettings]) ∧
    (∀ st, vs rt fmt = .ok st →
      (ImglyKit.render vs rt fmt).2 =
        [RenderStep.validateSettings,
         RenderStep.constructRenderImage,
         RenderStep.renderImageRender,
         RenderStep.exporterExport st.renderType st.imageFormat]) := by
  refine ⟨?_, fun e he => ?_, fun st hst => ?_⟩
  · unfold ImglyKit.render
    cases h : vs rt fmt with
    | error e => simp [h]
    | ok st => simp [h]
  · constructor
    · unfold ImglyKit.render
      rw [he]
    · unfold ImglyKit.render
      rw [he]
  · unfold ImglyKit.render
    rw [hst]

/-- C7 witness: the theorem applied to a validator that rejects the
pair (image, png), showing the synchronous failure with the single
validation step. -/
theorem C7_validate_before_render_witness :
    (ImglyKit.render (fun _ _ => .error "Unsupported combination")
      (some RenderType.image) (some ImageFormat.png)).1 =
        .error "Unsupported combination" ∧
    (ImglyKit.render (fun _ _ => .error "Unsupported combination")
      (some RenderType.image) (some ImageFormat.png)).2 =
        [RenderStep.validateSettings] :=
  (C7_validate_before_render
    (fun _ _ => .error "Unsupported combination")
    (some RenderType.image) (some ImageFormat.png)).2.1
    "Unsupported combination" rfl

/-! ## C9: `Vector2.clamp` -/

/-- C9: `Vector2.clamp` clamps each component independently and a
`none` bound is no constraint on that side: `clamp none (some M)`
bounds only above (componentwise `min`), `clamp (some m) none` bounds
only below (componentwise `max`), and when `m.x > M.x` the clamped x
component equals `m.x` — the minimum wins the tie-break. -/
theorem C9_clamp_null_bounds_and_tiebreak (v m M : Vector2) :
    v.clamp none (some M) = ⟨min v.x M.x, min v.y M.y⟩ ∧
    v.clamp (some m) none = ⟨max v.x m.x, max v.y m.y⟩ ∧
    (M.x < m.x → (v.clamp (some m) (some M)).x = m.x) := by
  refine ⟨rfl, rfl, fun h => ?_⟩
  simp only [Vector2.clamp, Vector2.clampComp, Option.map_some']
  exact max_eq_right (le_of_lt (lt_of_le_of_lt (min_le_right v.x M.x) h))

/-- C9 witness: the clamp laws evaluated at `v = (5, 5)`,
`m = (10, 0)`, `M = (7, 7)` — the x bounds cross and the minimum bound
10 wins. -/
theorem C9_clamp_null_bounds_and_tiebreak_witness :
    (Vector2.mk 5 5).clamp none (some ⟨7, 7⟩) = ⟨min 5 7, min 5 7⟩ ∧
    (Vector2.mk 5 5).clamp (some ⟨10, 0⟩) none = ⟨max 5 10, max 5 0⟩ ∧
    ((7 : ℚ) < 10 → ((Vector2.mk 5 5).clamp (some ⟨10, 0⟩) (some ⟨7, 7⟩)).x = 10) :=
  C9_clamp_null_bounds_and_tiebreak ⟨5, 5⟩ ⟨10, 0⟩ ⟨7, 7⟩

/-! ## C10: the `ImglyKit` constructor's required arguments -/

/-- C10: constructing `ImglyKit` with an undefined options argument
throws `"No options given."`, and constructing with an options object
whose `image` field is undefined throws
``"`options.image` is undefined."``; in both cases construction aborts
with the error and no instance state is produced. -/
theorem C10_constructor_required_options (opts : ImglyKit.KitOptions) :
    ImglyKit.construct none = .error "No options given." ∧
    (opts.image = none →
      ImglyKit.construct (some opts) = .error "`options.image` is undefined.") := by
  refine ⟨rfl, fun h => ?_⟩
  simp only [ImglyKit.construct, h]

/-- C10 witness: the constructor errors evaluated at the empty options
object. -/
theorem C10_constructor_required_options_witness :
    ImglyKit.construct none = .error "No options given." ∧
    ImglyKit.construct (some ⟨none, none, none, none⟩) =
      .error "`options.image` is undefined." :=
  ⟨(C10_constructor_required_options ⟨none, none, none, none⟩).1,
   (C10_constructor_required_options ⟨none, none, none, none⟩).2 rfl⟩

end Imgly
